import Mathlib

/-!
Verification development for the session component of a WebSocket gateway
(`node/session.go`).  The Go code is shallowly embedded: the mutable fields of
`Session` become a `SessionState` record, every method becomes a function
`SessionState → SessionState × List Event` returning the updated state together
with the trace of observable actions it performed (channel operations,
connection writes, timer operations, RPC calls), and the blocking loops
(`SendMessages`, `ReadMessages`) become recursions over the finite list of
items they consume, with write/read outcomes supplied by oracles.
-/

namespace AnycableSession

/-- websocket close code 1000 (normal closure), re-exported by the source. -/
def CloseNormalClosure : Int := 1000

/-- websocket close code 1001 (going away), re-exported by the source. -/
def CloseGoingAway : Int := 1001

/-- websocket close code 1005 (no status received). -/
def CloseNoStatusReceived : Int := 1005

/-- websocket close code 1006 (abnormal closure), re-exported by the source. -/
def CloseAbnormalClosure : Int := 1006

/-- websocket close code 1011 (internal server error), re-exported by the source. -/
def CloseInternalServerErr : Int := 1011

/-- Durations are modelled in milliseconds.  `writeWait = 10 * time.Second`. -/
def writeWaitMs : Nat := 10000

/-- Durations are modelled in milliseconds.  `pingInterval = 3 * time.Second`. -/
def pingIntervalMs : Nat := 3000

/-- Close statuses treated as an expected peer closure by `ReadMessages`
(`expectedCloseStatuses` in the source). -/
def expectedCloseStatuses : List Int :=
  [CloseNormalClosure, CloseGoingAway, CloseNoStatusReceived]

/-- Tag of an outbound frame (`frameType` in the source; only the two values
`textFrame` and `closeFrame` are ever constructed). -/
inductive FrameType
  | textFrame
  | closeFrame
deriving DecidableEq, Repr

/-- An outbound frame (`sentFrame` in the source).  Fields that a construction
site omits default to the Go zero values. -/
structure sentFrame where
  frameType : FrameType
  payload : String := ""
  closeCode : Int := 0
  closeReason : String := ""
deriving DecidableEq, Repr

/-- Observable actions performed by session methods. -/
inductive Event
  | enqueue (f : sentFrame)
  | closeChan
  | disconnectCall (reason : String) (code : Int)
  | rpcDisconnect
  | connWrite (payload : String) (deadlineMs : Nat)
  | closeWS (code : Int) (reason : String)
  | stopTimer
  | armTimer (afterMs : Nat)
  | handleCommand (msg : String)
deriving DecidableEq, Repr

/-- The mutable per-session state: the buffered send channel (`none` models the
channel variable being `nil`), the `closed` and `connected` flags, and whether a
ping timer is currently installed. -/
structure SessionState where
  send : Option (List sentFrame)
  closed : Bool
  connected : Bool
  pingTimer : Bool
deriving DecidableEq, Repr

/-- Capacity of the send channel, from `make(chan sentFrame, 256)`. -/
def capacity : Nat := 256

/-- Termination measure for the `sendFrame`/`disconnect`/`close` recursion: the
overflow path nils the channel before recursing, and `close` sets `closed`
before recursing, so this strictly drops across each recursive cycle. -/
def SessionState.measure (s : SessionState) : Nat :=
  (if s.send.isSome then 1 else 0) + (if s.closed then 0 else 1)

/-- The frame built by `sendClose`. -/
def closeSentFrame (reason : String) (code : Int) : sentFrame :=
  { frameType := FrameType.closeFrame, closeReason := reason, closeCode := code }

mutual

/-- Embedding of `Session.sendFrame`: a no-op when the channel is `nil`;
otherwise a non-blocking enqueue (the `select` with a `default` branch), whose
failure branch closes the channel, nils it, and runs the deferred
`Disconnect("Write failed", CloseAbnormalClosure)`. -/
def sendFrame (s : SessionState) (frame : sentFrame) : SessionState × List Event :=
  match h : s.send with
  | none => (s, [])
  | some q =>
    if q.length < capacity then
      ({ s with send := some (q ++ [frame]) }, [Event.enqueue frame])
    else
      let p := disconnect { s with send := none } "Write failed" CloseAbnormalClosure
      (p.1, Event.closeChan :: p.2)
termination_by (s.measure, 0)
decreasing_by
  apply Prod.Lex.left
  simp only [SessionState.measure, h, Option.isSome]
  cases s.closed <;> simp

/-- Embedding of `Session.Disconnect`: under the mutex, records whether the
session was connected and clears the flag; then calls `Close`; the deferred
`node.Disconnect(s)` (the RPC-ordering call) runs last, only if the session was
connected. -/
def disconnect (s : SessionState) (reason : String) (code : Int) :
    SessionState × List Event :=
  let wasConnected := s.connected
  let p := close { s with connected := false } reason code
  (p.1, Event.disconnectCall reason code ::
    (p.2 ++ if wasConnected then [Event.rpcDisconnect] else []))
termination_by (s.measure, 1)
decreasing_by
  exact Prod.Lex.right _ (by decide)

/-- Embedding of `Session.Close`: returns at once when already closed;
otherwise sets `closed`, enqueues a close frame via `sendClose`/`sendFrame`,
and stops the ping timer when one is installed. -/
def close (s : SessionState) (reason : String) (code : Int) :
    SessionState × List Event :=
  if h : s.closed then (s, [])
  else
    let p := sendFrame { s with closed := true } (closeSentFrame reason code)
    if p.1.pingTimer then
      ({ p.1 with pingTimer := false }, p.2 ++ [Event.stopTimer])
    else
      (p.1, p.2)
termination_by (s.measure, 0)
decreasing_by
  apply Prod.Lex.left
  simp only [SessionState.measure, Bool.not_eq_true] at h ⊢
  simp only [h]
  cases s.send <;> simp

end

/-- Embedding of `Session.Send`: wraps the payload in a text frame. -/
def Send (s : SessionState) (msg : String) : SessionState × List Event :=
  sendFrame s { frameType := FrameType.textFrame, payload := msg }

/-- Embedding of `Session.sendClose`. -/
def sendClose (s : SessionState) (reason : String) (code : Int) :
    SessionState × List Event :=
  sendFrame s (closeSentFrame reason code)

/-- Embedding of `Session.addPing`: under the mutex, installs a fresh
`pingInterval` timer unless the session is closed. -/
def addPing (s : SessionState) : SessionState × List Event :=
  if s.closed then (s, [])
  else ({ s with pingTimer := true }, [Event.armTimer pingIntervalMs])

/-- Embedding of `newPingMessage`: the JSON marshalling of
`pingMessage\x7bType: "ping", Message: time.Now().Unix()\x7d`. -/
def newPingMessage (now : Int) : String :=
  "\x7b\"type\":\"ping\",\"message\":" ++ toString now ++ "\x7d"

/-- Embedding of `Session.sendPing`: writes the ping payload under a deadline
of `pingInterval / 2`; re-arms the timer on success and disconnects with
`CloseAbnormalClosure` on failure.  `writeOk` is the outcome of the
connection write. -/
def sendPing (s : SessionState) (now : Int) (writeOk : Bool) :
    SessionState × List Event :=
  let e := Event.connWrite (newPingMessage now) (pingIntervalMs / 2)
  if writeOk then
    let p := addPing s
    (p.1, e :: p.2)
  else
    let p := disconnect s "Ping failed" CloseAbnormalClosure
    (p.1, e :: p.2)

/-- The fresh state built by `NewSession`: an empty channel of capacity 256,
both flags false, no timer installed yet. -/
def newSessionState : SessionState :=
  { send := some [], closed := false, connected := false, pingTimer := false }

/-- Embedding of `NewSession` after the struct literal: `addPing` runs before
the function returns, and when authentication failed the deferred
`Close("Auth Error", CloseInternalServerErr)` runs last. -/
def newSession (authErr : Bool) : SessionState × List Event :=
  let p := addPing newSessionState
  if authErr then
    let q := close p.1 "Auth Error" CloseInternalServerErr
    (q.1, p.2 ++ q.2)
  else p

/-- Reason a `SendMessages` iteration returns. -/
inductive ExitReason
  | queueClosed
  | writeError
  | closeDelivered
deriving DecidableEq, Repr

/-- Embedding of the `SendMessages` loop over the finite list of frames the
channel delivers.  `chanClosed` says whether the channel has been closed after
those frames (the `ok == false` receive); `writeOk i` is the outcome of the
i-th connection write.  The result is `none` when the loop is still blocked on
the channel, `some r` when it returned for reason `r`.  Text frames are written
under the `writeWait` deadline; a close frame is delivered via `utils.CloseWS`
and terminates the loop. -/
def sendMessagesRun (writeOk : Nat → Bool) :
    List sentFrame → Bool → Nat → Option ExitReason × List Event
  | [], chanClosed, _ =>
    (if chanClosed then some ExitReason.queueClosed else none, [])
  | f :: rest, chanClosed, i =>
    match f.frameType with
    | FrameType.textFrame =>
      let e := Event.connWrite f.payload writeWaitMs
      if writeOk i then
        let p := sendMessagesRun writeOk rest chanClosed (i + 1)
        (p.1, e :: p.2)
      else
        (some ExitReason.writeError, [e])
    | FrameType.closeFrame =>
      (some ExitReason.closeDelivered, [Event.closeWS f.closeCode f.closeReason])

/-- Condition under which the `SendMessages` loop never returns: every
delivered frame is a text frame and every write succeeds. -/
def allTextOk (writeOk : Nat → Bool) : Nat → List sentFrame → Bool
  | _, [] => true
  | i, f :: rest =>
    match f.frameType with
    | FrameType.textFrame => writeOk i && allTextOk writeOk (i + 1) rest
    | FrameType.closeFrame => false

/-- Outcome of one `ws.ReadMessage()` call. -/
inductive ReadResult
  | msg (data : String)
  | closeErr (status : Int)
  | otherErr
deriving DecidableEq, Repr

/-- Embedding of `websocket.IsCloseError(err, codes...)`: true exactly when the
error is a close error whose status is among `codes`. -/
def isCloseError : ReadResult → List Int → Bool
  | ReadResult.closeErr status, codes => codes.contains status
  | _, _ => false

/-- Embedding of one iteration of the `ReadMessages` loop: a successful read is
handed to `node.HandleCommand` and the loop continues (`true`); a read error is
mapped to a `Disconnect` and the loop breaks (`false`). -/
def readMessagesStep (s : SessionState) (r : ReadResult) :
    SessionState × List Event × Bool :=
  match r with
  | ReadResult.msg data => (s, [Event.handleCommand data], true)
  | e =>
    if isCloseError e expectedCloseStatuses then
      let p := disconnect s "Read closed" CloseNormalClosure
      (p.1, p.2, false)
    else
      let p := disconnect s "Read failed" CloseAbnormalClosure
      (p.1, p.2, false)

/-- The `ReadMessages` loop over a finite list of read outcomes: it stops at
the first iteration whose step breaks. -/
def readMessagesRun (s : SessionState) : List ReadResult → SessionState × List Event
  | [] => (s, [])
  | r :: rest =>
    let p := readMessagesStep s r
    if p.2.2 then
      let q := readMessagesRun p.1 rest
      (q.1, p.2.1 ++ q.2)
    else
      (p.1, p.2.1)

/-- A session-mutating operation of the embedded API, used to reason about
arbitrary interleavings of method calls on one session. -/
inductive Op
  | sendOp (msg : String)
  | closeOp (reason : String) (code : Int)
  | disconnectOp (reason : String) (code : Int)
  | pingFire (now : Int) (writeOk : Bool)
  | addPingOp
  | readStep (r : ReadResult)

/-- Interpretation of one operation. -/
def applyOp (s : SessionState) : Op → SessionState × List Event
  | Op.sendOp m => Send s m
  | Op.closeOp r c => close s r c
  | Op.disconnectOp r c => disconnect s r c
  | Op.pingFire now ok => sendPing s now ok
  | Op.addPingOp => addPing s
  | Op.readStep r =>
    let p := readMessagesStep s r
    (p.1, p.2.1)

/-- Sequential run of a list of operations, accumulating the event trace. -/
def runOps (s : SessionState) : List Op → SessionState × List Event
  | [] => (s, [])
  | op :: rest =>
    let p := applyOp s op
    let q := runOps p.1 rest
    (q.1, p.2 ++ q.2)

/-- Sequential run of a list of `Disconnect(reason, code)` calls. -/
def runDisconnects (s : SessionState) : List (String × Int) → SessionState × List Event
  | [] => (s, [])
  | c :: rest =>
    let p := disconnect s c.1 c.2
    let q := runDisconnects p.1 rest
    (q.1, p.2 ++ q.2)

/-- Atomic actions relevant to write serialization: taking and releasing the
session mutex, and writing a frame to the underlying connection (`true` tags a
close control frame). -/
inductive WAction
  | lock
  | unlock
  | wsFrameWrite (isCloseFrame : Bool)
deriving DecidableEq, Repr

/-- Action trace of `Session.write`: `mu.Lock()`, the connection write
(deadline set, `NextWriter`, `Write`, `Close`), then the deferred
`mu.Unlock()`. -/
def writeActions : List WAction :=
  [WAction.lock, WAction.wsFrameWrite false, WAction.unlock]

/-- Modelled from the spec: `utils.CloseWS` (the `utils` package is not part of
the sources at hand) delivers the close frame to the underlying connection; it
receives only the connection handle and the close code/reason, so it performs
the connection write without touching the session mutex. -/
def closeWSActions : List WAction :=
  [WAction.wsFrameWrite true]

/-- Action trace of the frame dispatch inside `SendMessages`: text frames go
through `Session.write`, close frames through `utils.CloseWS`. -/
def sendMessagesFrameActions (f : sentFrame) : List WAction :=
  match f.frameType with
  | FrameType.textFrame => writeActions
  | FrameType.closeFrame => closeWSActions

/-- Action trace of the connection write performed by `sendPing`, which calls
`Session.write`. -/
def sendPingWriteActions : List WAction := writeActions

/-- Net number of unreleased mutex acquisitions after a trace. -/
def lockCount (tr : List WAction) : Int :=
  tr.foldl
    (fun n a =>
      match a with
      | WAction.lock => n + 1
      | WAction.unlock => n - 1
      | WAction.wsFrameWrite _ => n)
    0

/-- Whether the mutex is held when the action at index `i` runs. -/
def heldAt (tr : List WAction) (i : Nat) : Bool :=
  0 < lockCount (tr.take i)

/-- Whether every connection write in the trace runs with the mutex held. -/
def allWritesHeld (tr : List WAction) : Bool :=
  (List.range tr.length).all fun i =>
    match tr.get? i with
    | some (WAction.wsFrameWrite _) => heldAt tr i
    | _ => true

/-- A sample text frame used by concrete instantiations. -/
def exFrame : sentFrame := { frameType := FrameType.textFrame, payload := "x" }

/-- A session whose send channel is full: 256 frames buffered, not closed,
connected, ping timer installed. -/
def sFull : SessionState :=
  { send := some (List.replicate capacity exFrame), closed := false,
    connected := true, pingTimer := true }

/-- A closed session whose send channel is still open and empty (the writer
drained the close frame already). -/
def sClosedOpen : SessionState :=
  { send := some [], closed := true, connected := false, pingTimer := false }

/-- A session after a queue overflow but before the deferred `Disconnect` ran:
the channel is nil, `closed` is still false, the ping timer is installed. -/
def sNilOpen : SessionState :=
  { send := none, closed := false, connected := false, pingTimer := true }

/-! Unfolding lemmas for the `sendFrame`/`disconnect`/`close` recursion.  The
recursion is shallow: the overflow branch recurses on a state whose channel is
nil, and re-entrant `close` calls see `closed = true`, so every behaviour has a
closed form. -/

theorem sendFrame_none {s : SessionState} (h : s.send = none) (f : sentFrame) :
    sendFrame s f = (s, []) := by
  rw [sendFrame]
  split
  · rfl
  · rename_i q hq
    rw [h] at hq
    cases hq

theorem sendFrame_enqueue {s : SessionState} {q : List sentFrame}
    (h : s.send = some q) (hlen : q.length < capacity) (f : sentFrame) :
    sendFrame s f = ({ s with send := some (q ++ [f]) }, [Event.enqueue f]) := by
  rw [sendFrame]
  split
  · rename_i hq
    rw [h] at hq
    cases hq
  · rename_i q2 hq
    rw [h] at hq
    injection hq with hq
    subst hq
    rw [if_pos hlen]

theorem sendFrame_overflow {s : SessionState} {q : List sentFrame}
    (h : s.send = some q) (hlen : capacity ≤ q.length) (f : sentFrame) :
    sendFrame s f =
      ((disconnect { s with send := none } "Write failed" CloseAbnormalClosure).1,
        Event.closeChan ::
          (disconnect { s with send := none } "Write failed" CloseAbnormalClosure).2) := by
  rw [sendFrame]
  split
  · rename_i hq
    rw [h] at hq
    cases hq
  · rename_i q2 hq
    rw [h] at hq
    injection hq with hq
    subst hq
    rw [if_neg (by omega)]

theorem close_closed {s : SessionState} (h : s.closed = true)
    (reason : String) (code : Int) :
    close s reason code = (s, []) := by
  rw [close]
  simp [h]

theorem disconnect_eq (s : SessionState) (reason : String) (code : Int) :
    disconnect s reason code =
      ((close { s with connected := false } reason code).1,
        Event.disconnectCall reason code ::
          ((close { s with connected := false } reason code).2 ++
            if s.connected then [Event.rpcDisconnect] else [])) := by
  rw [disconnect]

theorem close_send_none {s : SessionState} (hc : s.closed = false)
    (h : s.send = none) (reason : String) (code : Int) :
    close s reason code =
      ({ s with closed := true, pingTimer := false },
        if s.pingTimer then [Event.stopTimer] else []) := by
  rw [close]
  rw [dif_neg (by simp [hc])]
  rw [sendFrame_none (show ({ s with closed := true } : SessionState).send = none from h)]
  cases hp : s.pingTimer <;> simp [hp]

theorem close_enqueue {s : SessionState} {q : List sentFrame}
    (hc : s.closed = false) (h : s.send = some q) (hlen : q.length < capacity)
    (reason : String) (code : Int) :
    close s reason code =
      ({ s with
          closed := true,
          send := some (q ++ [closeSentFrame reason code]),
          pingTimer := false },
        Event.enqueue (closeSentFrame reason code) ::
          if s.pingTimer then [Event.stopTimer] else []) := by
  rw [close]
  rw [dif_neg (by simp [hc])]
  rw [sendFrame_enqueue
    (show ({ s with closed := true } : SessionState).send = some q from h) hlen]
  cases hp : s.pingTimer <;> simp [hp]

theorem disconnect_closed {s : SessionState} (h : s.closed = true)
    (reason : String) (code : Int) :
    disconnect s reason code =
      ({ s with connected := false },
        Event.disconnectCall reason code ::
          if s.connected then [Event.rpcDisconnect] else []) := by
  rw [disconnect_eq]
  rw [close_closed (show ({ s with connected := false } : SessionState).closed = true from h)]
  simp

theorem disconnect_send_none {s : SessionState} (hc : s.closed = false)
    (h : s.send = none) (reason : String) (code : Int) :
    disconnect s reason code =
      ({ s with connected := false, closed := true, pingTimer := false },
        Event.disconnectCall reason code ::
          ((if s.pingTimer then [Event.stopTimer] else []) ++
            if s.connected then [Event.rpcDisconnect] else [])) := by
  rw [disconnect_eq]
  rw [close_send_none (show ({ s with connected := false } : SessionState).closed = false from hc)
    (show ({ s with connected := false } : SessionState).send = none from h)]

theorem close_overflow {s : SessionState} {q : List sentFrame}
    (hc : s.closed = false) (h : s.send = some q) (hlen : capacity ≤ q.length)
    (reason : String) (code : Int) :
    close s reason code =
      ({ s with closed := true, send := none, connected := false, pingTimer := false },
        Event.closeChan ::
          Event.disconnectCall "Write failed" CloseAbnormalClosure ::
            ((if s.connected then [Event.rpcDisconnect] else []) ++
              if s.pingTimer then [Event.stopTimer] else [])) := by
  rw [close]
  rw [dif_neg (by simp [hc])]
  rw [sendFrame_overflow
    (show ({ s with closed := true } : SessionState).send = some q from h) hlen]
  rw [disconnect_closed (show ({ s with closed := true, send := none } : SessionState).closed = true from rfl)]
  cases hp : s.pingTimer <;> cases hcn : s.connected <;> simp [hp, hcn]

theorem rpc_not_in_close {s : SessionState} (h : s.connected = false)
    (reason : String) (code : Int) :
    Event.rpcDisconnect ∉ (close s reason code).2 := by
  cases hc : s.closed
  · cases hq : s.send with
    | none =>
      rw [close_send_none hc hq]
      cases hp : s.pingTimer <;> simp [hp]
    | some q =>
      by_cases hlen : q.length < capacity
      · rw [close_enqueue hc hq hlen]
        cases hp : s.pingTimer <;> simp [hp]
      · rw [close_overflow hc hq (by omega)]
        cases hp : s.pingTimer <;> simp [h, hp]
  · rw [close_closed hc]
    simp

theorem close_connected_false {s : SessionState} (h : s.connected = false)
    (reason : String) (code : Int) :
    (close s reason code).1.connected = false := by
  cases hc : s.closed
  · cases hq : s.send with
    | none => rw [close_send_none hc hq]; exact h
    | some q =>
      by_cases hlen : q.length < capacity
      · rw [close_enqueue hc hq hlen]; exact h
      · rw [close_overflow hc hq (by omega)]
  · rw [close_closed hc]; exact h

theorem disconnect_connected_false (s : SessionState) (reason : String) (code : Int) :
    (disconnect s reason code).1.connected = false := by
  rw [disconnect_eq]
  exact close_connected_false rfl reason code

theorem disconnect_rpc_count (s : SessionState) (reason : String) (code : Int) :
    (disconnect s reason code).2.count Event.rpcDisconnect =
      if s.connected then 1 else 0 := by
  rw [disconnect_eq]
  have hnot : Event.rpcDisconnect ∉
      (close { s with connected := false } reason code).2 :=
    rpc_not_in_close rfl reason code
  cases hcn : s.connected <;>
    simp [List.count_cons, List.count_append, List.count_eq_zero.mpr hnot]

theorem close_closed_preserved {s : SessionState} (h : s.closed = true)
    (reason : String) (code : Int) :
    (close s reason code).1.closed = true := by
  rw [close_closed h]
  exact h

theorem sendFrame_closed_preserved {s : SessionState} (h : s.closed = true)
    (f : sentFrame) :
    (sendFrame s f).1.closed = true := by
  cases hq : s.send with
  | none => rw [sendFrame_none hq]; exact h
  | some q =>
    by_cases hlen : q.length < capacity
    · rw [sendFrame_enqueue hq hlen]; exact h
    · rw [sendFrame_overflow hq (by omega)]
      rw [disconnect_closed (show ({ s with send := none } : SessionState).closed = true from h)]
      exact h

theorem disconnect_closed_preserved {s : SessionState} (h : s.closed = true)
    (reason : String) (code : Int) :
    (disconnect s reason code).1.closed = true := by
  rw [disconnect_closed h]
  exact h

theorem armTimer_not_in_close (s : SessionState) (reason : String) (code : Int)
    (ms : Nat) :
    Event.armTimer ms ∉ (close s reason code).2 := by
  cases hc : s.closed
  · cases hq : s.send with
    | none =>
      rw [close_send_none hc hq]
      cases hp : s.pingTimer <;> simp [hp]
    | some q =>
      by_cases hlen : q.length < capacity
      · rw [close_enqueue hc hq hlen]
        cases hp : s.pingTimer <;> simp [hp]
      · rw [close_overflow hc hq (by omega)]
        cases hp : s.pingTimer <;> cases hcn : s.connected <;> simp [hp, hcn]
  · rw [close_closed hc]
    simp

theorem armTimer_not_in_disconnect (s : SessionState) (reason : String) (code : Int)
    (ms : Nat) :
    Event.armTimer ms ∉ (disconnect s reason code).2 := by
  rw [disconnect_eq]
  have h := armTimer_not_in_close { s with connected := false } reason code ms
  cases hcn : s.connected <;> simp_all

theorem armTimer_not_in_sendFrame (s : SessionState) (f : sentFrame) (ms : Nat) :
    Event.armTimer ms ∉ (sendFrame s f).2 := by
  cases hq : s.send with
  | none => rw [sendFrame_none hq]; simp
  | some q =>
    by_cases hlen : q.length < capacity
    · rw [sendFrame_enqueue hq hlen]; simp
    · rw [sendFrame_overflow hq (by omega)]
      have h := armTimer_not_in_disconnect { s with send := none }
        "Write failed" CloseAbnormalClosure ms
      simp_all

theorem disconnect_send_none_preserved {s : SessionState} (h : s.send = none)
    (reason : String) (code : Int) :
    (disconnect s reason code).1.send = none := by
  cases hc : s.closed
  · rw [disconnect_send_none hc h]; exact h
  · rw [disconnect_closed hc]; exact h

theorem disconnect_send_none_closed {s : SessionState} (h : s.send = none)
    (hc : s.closed = false) (reason : String) (code : Int) :
    (disconnect s reason code).1.closed = true := by
  rw [disconnect_send_none hc h]

theorem disconnect_send_none_events {s : SessionState} (h : s.send = none)
    (reason : String) (code : Int) (e : Event) :
    e ∈ (disconnect s reason code).2 →
      e = Event.disconnectCall reason code ∨ e = Event.stopTimer ∨
        e = Event.rpcDisconnect := by
  cases hc : s.closed
  · rw [disconnect_send_none hc h]
    cases hp : s.pingTimer <;> cases hcn : s.connected <;> simp [hp, hcn] <;> tauto
  · rw [disconnect_closed hc]
    cases hcn : s.connected <;> simp [hcn] <;> tauto

theorem disconnectCall_mem (s : SessionState) (reason : String) (code : Int) :
    Event.disconnectCall reason code ∈ (disconnect s reason code).2 := by
  rw [disconnect_eq]
  simp

theorem disconnect_closed_after {s : SessionState} (h : s.send = none)
    (reason : String) (code : Int) :
    (disconnect s reason code).1.closed = true := by
  cases hc : s.closed
  · exact disconnect_send_none_closed h hc reason code
  · exact disconnect_closed_preserved hc reason code

theorem contains_iff_mem_int (l : List Int) (x : Int) :
    l.contains x = true ↔ x ∈ l := by
  induction l with
  | nil => simp
  | cons a t ih => simp [List.contains, List.elem_cons]

/-- C5: `ReadMessages` exits its loop on any read error and maps the error to
a disconnect: a close error with status among the expected statuses
`[1000, 1001, 1005]` yields `Disconnect("Read closed", CloseNormalClosure)`,
every other read error yields `Disconnect("Read failed", CloseAbnormalClosure)`,
and a successful read is handed to `HandleCommand` and the loop continues. -/
theorem read_error_mapping :
    (∀ (s : SessionState) (status : Int), status ∈ expectedCloseStatuses →
      readMessagesStep s (ReadResult.closeErr status) =
        ((disconnect s "Read closed" CloseNormalClosure).1,
          (disconnect s "Read closed" CloseNormalClosure).2, false)) ∧
    (∀ (s : SessionState) (status : Int), status ∉ expectedCloseStatuses →
      readMessagesStep s (ReadResult.closeErr status) =
        ((disconnect s "Read failed" CloseAbnormalClosure).1,
          (disconnect s "Read failed" CloseAbnormalClosure).2, false)) ∧
    (∀ s : SessionState,
      readMessagesStep s ReadResult.otherErr =
        ((disconnect s "Read failed" CloseAbnormalClosure).1,
          (disconnect s "Read failed" CloseAbnormalClosure).2, false)) ∧
    (∀ (s : SessionState) (d : String),
      readMessagesStep s (ReadResult.msg d) = (s, [Event.handleCommand d], true)) ∧
    (∀ (s : SessionState) (r : ReadResult) (rest : List ReadResult),
      (readMessagesStep s r).2.2 = false →
      readMessagesRun s (r :: rest) =
        ((readMessagesStep s r).1, (readMessagesStep s r).2.1)) ∧
    expectedCloseStatuses = [1000, 1001, 1005] := by
  refine ⟨?_, ?_, ?_, ?_, ?_, rfl⟩
  · intro s status hmem
    have h : isCloseError (ReadResult.closeErr status) expectedCloseStatuses = true := by
      simpa [isCloseError, contains_iff_mem_int] using hmem
    simp [readMessagesStep, h]
  · intro s status hmem
    have h : isCloseError (ReadResult.closeErr status) expectedCloseStatuses = false := by
      simp only [isCloseError]
      rw [← Bool.not_eq_true]
      simpa [contains_iff_mem_int] using hmem
    simp [readMessagesStep, h]
  · intro s
    simp [readMessagesStep, isCloseError]
  · intro s d
    simp [readMessagesStep]
  · intro s r rest h
    simp [readMessagesRun, h]

/-- Witness for C5 at concrete inputs: status 1000 is an expected closure,
status 1006 is not, and an error step breaks the loop. -/
theorem read_error_mapping_witness :
    readMessagesStep sClosedOpen (ReadResult.closeErr 1000) =
      ((disconnect sClosedOpen "Read closed" CloseNormalClosure).1,
        (disconnect sClosedOpen "Read closed" CloseNormalClosure).2, false) ∧
    readMessagesStep sClosedOpen (ReadResult.closeErr 1006) =
      ((disconnect sClosedOpen "Read failed" CloseAbnormalClosure).1,
        (disconnect sClosedOpen "Read failed" CloseAbnormalClosure).2, false) ∧
    readMessagesRun sClosedOpen [ReadResult.otherErr, ReadResult.msg "late"] =
      ((readMessagesStep sClosedOpen ReadResult.otherErr).1,
        (readMessagesStep sClosedOpen ReadResult.otherErr).2.1) :=
  ⟨read_error_mapping.1 sClosedOpen 1000 (by decide),
   read_error_mapping.2.1 sClosedOpen 1006 (by decide),
   read_error_mapping.2.2.2.2.1 sClosedOpen ReadResult.otherErr [ReadResult.msg "late"]
     (by simp [readMessagesStep, isCloseError])⟩

theorem applyOp_closed {s : SessionState} (h : s.closed = true) (op : Op) :
    (applyOp s op).1.closed = true ∧
      ∀ ms, Event.armTimer ms ∉ (applyOp s op).2 := by
  cases op with
  | sendOp m =>
    exact ⟨sendFrame_closed_preserved h _, fun ms => armTimer_not_in_sendFrame s _ ms⟩
  | closeOp r c =>
    refine ⟨close_closed_preserved h r c, fun ms => armTimer_not_in_close s r c ms⟩
  | disconnectOp r c =>
    exact ⟨disconnect_closed_preserved h r c, fun ms => armTimer_not_in_disconnect s r c ms⟩
  | pingFire now ok =>
    cases ok
    · constructor
      · exact disconnect_closed_preserved h _ _
      · intro ms
        have := armTimer_not_in_disconnect s "Ping failed" CloseAbnormalClosure ms
        simp [applyOp, sendPing]
        exact fun hmem => this hmem
    · constructor
      · simp [applyOp, sendPing, addPing, h]
      · intro ms
        simp [applyOp, sendPing, addPing, h]
  | addPingOp =>
    constructor
    · simp [applyOp, addPing, h]
    · simp [applyOp, addPing, h]
  | readStep r =>
    cases r with
    | msg d => constructor
               · simpa [applyOp, readMessagesStep] using h
               · simp [applyOp, readMessagesStep]
    | closeErr status =>
      by_cases hcl : isCloseError (ReadResult.closeErr status) expectedCloseStatuses = true
      · constructor
        · simpa [applyOp, readMessagesStep, hcl] using disconnect_closed_preserved h _ _
        · intro ms
          have := armTimer_not_in_disconnect s "Read closed" CloseNormalClosure ms
          simp [applyOp, readMessagesStep, hcl]
          exact fun hmem => this hmem
      · rw [Bool.not_eq_true] at hcl
        constructor
        · simpa [applyOp, readMessagesStep, hcl] using disconnect_closed_preserved h _ _
        · intro ms
          have := armTimer_not_in_disconnect s "Read failed" CloseAbnormalClosure ms
          simp [applyOp, readMessagesStep, hcl]
          exact fun hmem => this hmem
    | otherErr =>
      constructor
      · simpa [applyOp, readMessagesStep, isCloseError] using disconnect_closed_preserved h _ _
      · intro ms
        have := armTimer_not_in_disconnect s "Read failed" CloseAbnormalClosure ms
        simp [applyOp, readMessagesStep, isCloseError]
        exact fun hmem => this hmem

/-- C7: the ping timer is never re-armed once `closed` is true: `addPing` on a
closed session installs nothing, and along any sequence of session operations
started from a closed session, `closed` stays true and no timer-arming action
ever occurs. -/
theorem no_rearm_after_closed :
    (∀ s : SessionState, s.closed = true → addPing s = (s, [])) ∧
    (∀ (s : SessionState) (ops : List Op), s.closed = true →
      (runOps s ops).1.closed = true ∧
        ∀ ms, Event.armTimer ms ∉ (runOps s ops).2) := by
  constructor
  · intro s h
    simp [addPing, h]
  · intro s ops
    induction ops generalizing s with
    | nil => intro h; exact ⟨h, by simp [runOps]⟩
    | cons op rest ih =>
      intro h
      have hstep := applyOp_closed h op
      have hrest := ih (applyOp s op).1 hstep.1
      refine ⟨?_, ?_⟩
      · simpa [runOps] using hrest.1
      · intro ms
        simp only [runOps, List.mem_append]
        rintro (hmem | hmem)
        · exact hstep.2 ms hmem
        · exact hrest.2 ms hmem

/-- Witness for C7 at a concrete closed session and operation sequence. -/
theorem no_rearm_after_closed_witness :
    addPing sClosedOpen = (sClosedOpen, []) ∧
    (runOps sClosedOpen [Op.addPingOp, Op.sendOp "a", Op.pingFire 5 true]).1.closed = true ∧
    Event.armTimer pingIntervalMs ∉
      (runOps sClosedOpen [Op.addPingOp, Op.sendOp "a", Op.pingFire 5 true]).2 :=
  ⟨no_rearm_after_closed.1 sClosedOpen rfl,
   (no_rearm_after_closed.2 sClosedOpen [Op.addPingOp, Op.sendOp "a", Op.pingFire 5 true] rfl).1,
   (no_rearm_after_closed.2 sClosedOpen [Op.addPingOp, Op.sendOp "a", Op.pingFire 5 true] rfl).2
     pingIntervalMs⟩

theorem runDisconnects_rpc_zero {s : SessionState} (h : s.connected = false)
    (calls : List (String × Int)) :
    (runDisconnects s calls).2.count Event.rpcDisconnect = 0 := by
  induction calls generalizing s with
  | nil => simp [runDisconnects]
  | cons c rest ih =>
    have hzero : (disconnect s c.1 c.2).2.count Event.rpcDisconnect = 0 := by
      rw [disconnect_rpc_count, h]
      rfl
    have hnext := ih (disconnect_connected_false s c.1 c.2)
    simp [runDisconnects, List.count_append, hzero, hnext]

/-- C2: along any sequence of `Disconnect` calls on one session, the RPC
disconnect (`node.Disconnect`) is ordered at most once, and never when the
session was not connected; each `Disconnect` produces the same state as a
`Close` on the session with `connected` cleared; and a second `Disconnect`
orders no further RPC disconnect. -/
theorem disconnect_rpc_at_most_once :
    (∀ (s : SessionState) (reason : String) (code : Int),
      (disconnect s reason code).1 =
        (close { s with connected := false } reason code).1) ∧
    (∀ (s : SessionState) (calls : List (String × Int)),
      (runDisconnects s calls).2.count Event.rpcDisconnect ≤ 1) ∧
    (∀ (s : SessionState) (calls : List (String × Int)), s.connected = false →
      (runDisconnects s calls).2.count Event.rpcDisconnect = 0) ∧
    (∀ (s : SessionState) (r1 r2 : String) (c1 c2 : Int),
      (disconnect (disconnect s r1 c1).1 r2 c2).2.count Event.rpcDisconnect = 0) := by
  refine ⟨?_, ?_, ?_, ?_⟩
  · intro s reason code
    rw [disconnect_eq]
  · intro s calls
    cases calls with
    | nil => simp [runDisconnects]
    | cons c rest =>
      have hone : (disconnect s c.1 c.2).2.count Event.rpcDisconnect ≤ 1 := by
        rw [disconnect_rpc_count]
        cases s.connected <;> simp
      have hrest := runDisconnects_rpc_zero (disconnect_connected_false s c.1 c.2) rest
      simp only [runDisconnects, List.count_append]
      omega
  · intro s calls h
    exact runDisconnects_rpc_zero h calls
  · intro s r1 r2 c1 c2
    rw [disconnect_rpc_count, disconnect_connected_false]
    rfl

/-- Witness for C2 at concrete inputs: two `Disconnect` calls on a connected
session order exactly one RPC disconnect in total, and none when the session
was never connected. -/
theorem disconnect_rpc_at_most_once_witness :
    (disconnect sFull "going away" CloseGoingAway).1 =
      (close { sFull with connected := false } "going away" CloseGoingAway).1 ∧
    (runDisconnects sFull [("a", 1001), ("b", 1006)]).2.count Event.rpcDisconnect ≤ 1 ∧
    (runDisconnects sClosedOpen [("a", 1001)]).2.count Event.rpcDisconnect = 0 ∧
    (disconnect (disconnect sFull "a" 1001).1 "b" 1006).2.count Event.rpcDisconnect = 0 :=
  ⟨disconnect_rpc_at_most_once.1 sFull "going away" CloseGoingAway,
   disconnect_rpc_at_most_once.2.1 sFull [("a", 1001), ("b", 1006)],
   disconnect_rpc_at_most_once.2.2.1 sClosedOpen [("a", 1001)] rfl,
   disconnect_rpc_at_most_once.2.2.2 sFull "a" "b" 1001 1006⟩

/-- C1: `Send` is fire-and-forget (a total function; the enqueue is the
non-blocking `select`, so the caller never blocks and no error is returned);
the queue never exceeds its capacity of 256; and when the queue is full at the
moment of the enqueue, the channel is closed exactly once, the session is
terminated through `Disconnect("Write failed", CloseAbnormalClosure)`, and no
later `Send` closes it again. -/
theorem send_overflow_terminates :
    (∀ (s : SessionState) (msg : String) (q : List sentFrame),
      s.send = some q → q.length ≤ capacity →
      ∀ q2, (Send s msg).1.send = some q2 → q2.length ≤ capacity) ∧
    (∀ (s : SessionState) (msg : String) (q : List sentFrame),
      s.send = some q → q.length = capacity →
      (Send s msg).1.send = none ∧
      (Send s msg).1.closed = true ∧
      (Send s msg).2.count Event.closeChan = 1 ∧
      Event.disconnectCall "Write failed" CloseAbnormalClosure ∈ (Send s msg).2 ∧
      ∀ msg2, Send (Send s msg).1 msg2 = ((Send s msg).1, [])) := by
  constructor
  · intro s msg q hq hle q2 hq2
    by_cases hlen : q.length < capacity
    · rw [Send, sendFrame_enqueue hq hlen] at hq2
      simp only at hq2
      injection hq2 with hq2
      subst hq2
      simp
      omega
    · rw [Send, sendFrame_overflow hq (by omega)] at hq2
      simp only at hq2
      rw [disconnect_send_none_preserved rfl] at hq2
      cases hq2
  · intro s msg q hq hlen
    have hover := sendFrame_overflow hq (le_of_eq hlen.symm)
      { frameType := FrameType.textFrame, payload := msg }
    rw [Send, hover]
    simp only
    refine ⟨disconnect_send_none_preserved rfl _ _, disconnect_closed_after rfl _ _,
      ?_, ?_, ?_⟩
    · rw [List.count_cons]
      have hnone : Event.closeChan ∉
          (disconnect { s with send := none } "Write failed" CloseAbnormalClosure).2 := by
        intro hmem
        rcases disconnect_send_none_events rfl _ _ _ hmem with h | h | h <;> cases h
      simp [List.count_eq_zero.mpr hnone]
    · rw [List.mem_cons]
      right
      exact disconnectCall_mem _ _ _
    · intro msg2
      exact sendFrame_none (disconnect_send_none_preserved rfl _ _) _

/-- Witness for C1 at a session whose 256-slot queue is full. -/
theorem send_overflow_terminates_witness :
    (Send sFull "y").1.send = none ∧
    (Send sFull "y").1.closed = true ∧
    (Send sFull "y").2.count Event.closeChan = 1 ∧
    Event.disconnectCall "Write failed" CloseAbnormalClosure ∈ (Send sFull "y").2 ∧
    Send (Send sFull "y").1 "z" = ((Send sFull "y").1, []) := by
  have h := send_overflow_terminates.2 sFull "y" (List.replicate capacity exFrame)
    rfl (by simp)
  exact ⟨h.1, h.2.1, h.2.2.1, h.2.2.2.1, h.2.2.2.2 "z"⟩

/-- C10: a queue overflow nils the send channel; afterwards every `sendFrame`
(both `Send` and the close-frame enqueue) is a no-op that enqueues nothing, and
in particular the close frame produced by a `Close` once the channel is nil is
silently dropped and never reaches the writer loop. -/
theorem overflow_drops_later_close_frame :
    (∀ (s : SessionState) (msg : String) (q : List sentFrame),
      s.send = some q → capacity ≤ q.length →
      (Send s msg).1.send = none ∧
      (∀ f, sendFrame (Send s msg).1 f = ((Send s msg).1, [])) ∧
      (∀ f, Event.enqueue f ∉ (Send s msg).2)) ∧
    (∀ (s2 : SessionState) (reason : String) (code : Int), s2.send = none →
      ∀ f, Event.enqueue f ∉ (close s2 reason code).2) := by
  constructor
  · intro s msg q hq hlen
    rw [Send, sendFrame_overflow hq hlen]
    simp only
    refine ⟨disconnect_send_none_preserved rfl _ _, ?_, ?_⟩
    · intro f
      exact sendFrame_none (disconnect_send_none_preserved rfl _ _) f
    · intro f
      rw [List.mem_cons]
      rintro (h | h)
      · cases h
      · rcases disconnect_send_none_events rfl _ _ _ h with h2 | h2 | h2 <;> cases h2
  · intro s2 reason code hnone f
    cases hc : s2.closed
    · rw [close_send_none hc hnone]
      cases hp : s2.pingTimer <;> simp [hp]
    · rw [close_closed hc]
      simp

/-- Witness for C10 at a session whose 256-slot queue is full, and a `Close`
on the resulting nil-channel session. -/
theorem overflow_drops_later_close_frame_witness :
    (Send sFull "y2").1.send = none ∧
    sendFrame (Send sFull "y2").1 (closeSentFrame "bye" CloseNormalClosure) =
      ((Send sFull "y2").1, []) ∧
    Event.enqueue (closeSentFrame "bye" CloseNormalClosure) ∉ (Send sFull "y2").2 ∧
    Event.enqueue (closeSentFrame "bye" CloseNormalClosure) ∉
      (close sNilOpen "bye" CloseNormalClosure).2 := by
  have h := overflow_drops_later_close_frame.1 sFull "y2"
    (List.replicate capacity exFrame) rfl (by simp)
  exact ⟨h.1, h.2.1 _, h.2.2 _,
    overflow_drops_later_close_frame.2 sNilOpen "bye" CloseNormalClosure rfl _⟩

theorem sendMessagesRun_none_iff (writeOk : Nat → Bool) (frames : List sentFrame)
    (chanClosed : Bool) (i : Nat) :
    (sendMessagesRun writeOk frames chanClosed i).1 = none ↔
      chanClosed = false ∧ allTextOk writeOk i frames = true := by
  induction frames generalizing i with
  | nil => cases chanClosed <;> simp [sendMessagesRun, allTextOk]
  | cons f rest ih =>
    cases hf : f.frameType
    · cases hw : writeOk i
      · simp [sendMessagesRun, allTextOk, hf, hw]
      · simp [sendMessagesRun, allTextOk, hf, hw, ih]
    · simp [sendMessagesRun, allTextOk, hf]

theorem sendMessagesRun_queueClosed_iff (writeOk : Nat → Bool)
    (frames : List sentFrame) (chanClosed : Bool) (i : Nat) :
    (sendMessagesRun writeOk frames chanClosed i).1 = some ExitReason.queueClosed ↔
      chanClosed = true ∧ allTextOk writeOk i frames = true := by
  induction frames generalizing i with
  | nil => cases chanClosed <;> simp [sendMessagesRun, allTextOk]
  | cons f rest ih =>
    cases hf : f.frameType
    · cases hw : writeOk i
      · simp [sendMessagesRun, allTextOk, hf, hw]
      · simp [sendMessagesRun, allTextOk, hf, hw, ih]
    · simp [sendMessagesRun, allTextOk, hf]

theorem sendMessagesRun_closeDelivered (writeOk : Nat → Bool)
    (frames : List sentFrame) (chanClosed : Bool) (i : Nat)
    (h : (sendMessagesRun writeOk frames chanClosed i).1 =
      some ExitReason.closeDelivered) :
    ∃ es c r, (sendMessagesRun writeOk frames chanClosed i).2 =
      es ++ [Event.closeWS c r] := by
  induction frames generalizing i with
  | nil => cases chanClosed <;> simp [sendMessagesRun] at h
  | cons f rest ih =>
    cases hf : f.frameType
    · cases hw : writeOk i
      · simp [sendMessagesRun, hf, hw] at h
      · rw [show (sendMessagesRun writeOk (f :: rest) chanClosed i).1 =
            (sendMessagesRun writeOk rest chanClosed (i + 1)).1 by
            simp [sendMessagesRun, hf, hw]] at h
        obtain ⟨es, c, r, he⟩ := ih (i + 1) h
        exact ⟨Event.connWrite f.payload writeWaitMs :: es, c, r, by
          simp [sendMessagesRun, hf, hw, he]⟩
    · exact ⟨[], f.closeCode, f.closeReason, by simp [sendMessagesRun, hf]⟩

theorem sendMessagesRun_writeError (writeOk : Nat → Bool)
    (frames : List sentFrame) (chanClosed : Bool) (i : Nat)
    (h : (sendMessagesRun writeOk frames chanClosed i).1 =
      some ExitReason.writeError) :
    ∃ j, i ≤ j ∧ writeOk j = false := by
  induction frames generalizing i with
  | nil => cases chanClosed <;> simp [sendMessagesRun] at h
  | cons f rest ih =>
    cases hf : f.frameType
    · cases hw : writeOk i
      · exact ⟨i, le_refl i, hw⟩
      · rw [show (sendMessagesRun writeOk (f :: rest) chanClosed i).1 =
            (sendMessagesRun writeOk rest chanClosed (i + 1)).1 by
            simp [sendMessagesRun, hf, hw]] at h
        obtain ⟨j, hij, hj⟩ := ih (i + 1) h
        exact ⟨j, by omega, hj⟩
    · simp [sendMessagesRun, hf] at h

theorem sendMessagesRun_deadline (writeOk : Nat → Bool)
    (frames : List sentFrame) (chanClosed : Bool) (i : Nat) (p : String) (d : Nat)
    (h : Event.connWrite p d ∈ (sendMessagesRun writeOk frames chanClosed i).2) :
    d = writeWaitMs := by
  induction frames generalizing i with
  | nil => cases chanClosed <;> simp [sendMessagesRun] at h
  | cons f rest ih =>
    cases hf : f.frameType
    · cases hw : writeOk i
      · simp [sendMessagesRun, hf, hw] at h
        exact h.2
      · simp [sendMessagesRun, hf, hw] at h
        rcases h with h | h
        · exact h.2
        · exact ih (i + 1) h
    · simp [sendMessagesRun, hf] at h

/-- C8: the `SendMessages` loop writes each text frame under the 10-second
write deadline, and exits exactly in three cases — on a write error, on a close
frame after delivering it to the connection, or on closure of the queue
channel; on a run with no write failure, no close frame and an open channel, it
does not return. -/
theorem writer_loop_contract :
    (∀ (writeOk : Nat → Bool) (frames : List sentFrame) (chanClosed : Bool) (i : Nat),
      (sendMessagesRun writeOk frames chanClosed i).1 = none ↔
        chanClosed = false ∧ allTextOk writeOk i frames = true) ∧
    (∀ (writeOk : Nat → Bool) (frames : List sentFrame) (chanClosed : Bool) (i : Nat),
      (sendMessagesRun writeOk frames chanClosed i).1 = some ExitReason.queueClosed ↔
        chanClosed = true ∧ allTextOk writeOk i frames = true) ∧
    (∀ (writeOk : Nat → Bool) (frames : List sentFrame) (chanClosed : Bool) (i : Nat),
      (sendMessagesRun writeOk frames chanClosed i).1 = some ExitReason.closeDelivered →
        ∃ es c r, (sendMessagesRun writeOk frames chanClosed i).2 =
          es ++ [Event.closeWS c r]) ∧
    (∀ (writeOk : Nat → Bool) (frames : List sentFrame) (chanClosed : Bool) (i : Nat),
      (sendMessagesRun writeOk frames chanClosed i).1 = some ExitReason.writeError →
        ∃ j, i ≤ j ∧ writeOk j = false) ∧
    (∀ (writeOk : Nat → Bool) (frames : List sentFrame) (chanClosed : Bool)
      (i : Nat) (p : String) (d : Nat),
      Event.connWrite p d ∈ (sendMessagesRun writeOk frames chanClosed i).2 →
        d = writeWaitMs) :=
  ⟨sendMessagesRun_none_iff, sendMessagesRun_queueClosed_iff,
   sendMessagesRun_closeDelivered, sendMessagesRun_writeError,
   sendMessagesRun_deadline⟩

/-- Witness for C8 at concrete runs: an all-text run with an open channel
blocks, the same run with a closed channel returns `queueClosed`, a run ending
in a close frame delivers the close as its last action, and a concrete text
write carries the 10-second deadline. -/
theorem writer_loop_contract_witness :
    (sendMessagesRun (fun j => true) [exFrame] false 0).1 = none ∧
    (sendMessagesRun (fun j => true) [exFrame] true 0).1 =
      some ExitReason.queueClosed ∧
    (∃ es c r, (sendMessagesRun (fun j => true)
      [exFrame, closeSentFrame "done" CloseNormalClosure] false 0).2 =
        es ++ [Event.closeWS c r]) ∧
    10000 = writeWaitMs :=
  ⟨(writer_loop_contract.1 (fun j => true) [exFrame] false 0).mpr
      ⟨rfl, by decide⟩,
   (writer_loop_contract.2.1 (fun j => true) [exFrame] true 0).mpr
      ⟨rfl, by decide⟩,
   writer_loop_contract.2.2.1 (fun j => true)
      [exFrame, closeSentFrame "done" CloseNormalClosure] false 0 (by decide),
   writer_loop_contract.2.2.2.2 (fun j => true) [exFrame] false 0 "x" 10000
      (by decide)⟩

/-- Counterexample for C3: on a closed session whose channel is still open,
`Send` does accept a new frame into the outbound queue — `sendFrame` checks
only whether the channel is nil, never the `closed` flag. -/
theorem closed_still_accepts_frames_cex :
    sClosedOpen.closed = true ∧
    (Send sClosedOpen "hello").1.send =
      some [{ frameType := FrameType.textFrame, payload := "hello" }] ∧
    Event.enqueue { frameType := FrameType.textFrame, payload := "hello" } ∈
      (Send sClosedOpen "hello").2 := by
  refine ⟨rfl, ?_, ?_⟩ <;> simp [Send, sendFrame, sClosedOpen, capacity]

/-- C3 (amended): frames stop being accepted once the send channel is nil
(`sendFrame` is then a no-op), not once `closed` is set; a frame enqueued
behind the close frame is nevertheless never delivered, because the writer
loop returns at the close frame and ignores everything after it. -/
theorem closed_still_accepts_frames_amended :
    (∀ (s : SessionState) (f : sentFrame), s.send = none →
      sendFrame s f = (s, [])) ∧
    (∀ (writeOk : Nat → Bool) (pre post : List sentFrame) (c : sentFrame)
      (chanClosed : Bool) (i : Nat), c.frameType = FrameType.closeFrame →
      sendMessagesRun writeOk (pre ++ c :: post) chanClosed i =
        sendMessagesRun writeOk (pre ++ [c]) chanClosed i) := by
  constructor
  · intro s f h
    exact sendFrame_none h f
  · intro writeOk pre post c chanClosed i hc
    induction pre generalizing i with
    | nil => simp [sendMessagesRun, hc]
    | cons f pr ih =>
      cases hf : f.frameType
      · cases hw : writeOk i <;> simp [sendMessagesRun, hf, hw, ih]
      · simp [sendMessagesRun, hf]

/-- Witness for the amended C3: a nil-channel session ignores a `Send`, and a
writer run stops at the close frame, ignoring a frame queued behind it. -/
theorem closed_still_accepts_frames_amended_witness :
    sendFrame sNilOpen exFrame = (sNilOpen, []) ∧
    sendMessagesRun (fun j => true)
        ([] ++ closeSentFrame "bye" CloseNormalClosure :: [exFrame]) false 0 =
      sendMessagesRun (fun j => true)
        ([] ++ [closeSentFrame "bye" CloseNormalClosure]) false 0 :=
  ⟨closed_still_accepts_frames_amended.1 sNilOpen exFrame rfl,
   closed_still_accepts_frames_amended.2 (fun j => true) [] [exFrame]
     (closeSentFrame "bye" CloseNormalClosure) false 0 rfl⟩

/-- Counterexample for C4: a first `Close` on a not-yet-closed session whose
send channel is nil (the state left behind by a queue overflow) enqueues no
close frame at all — its only action is stopping the ping timer. -/
theorem close_idempotent_cex :
    sNilOpen.closed = false ∧
    (close sNilOpen "bye" CloseNormalClosure).2 = [Event.stopTimer] ∧
    (close sNilOpen "bye" CloseNormalClosure).1 =
      { send := none, closed := true, connected := false, pingTimer := false } := by
  refine ⟨rfl, ?_, ?_⟩ <;>
    rw [close_send_none (s := sNilOpen) rfl rfl] <;> rfl

/-- C4 (amended): `Close` is idempotent — the first call on a not-yet-closed
session sets `closed`, stops the ping timer when one is installed, and
enqueues exactly one close frame with the given reason and code provided the
send channel is non-nil and not full (when the channel is nil the close frame
is dropped); every subsequent call returns immediately and changes nothing. -/
theorem close_idempotent_amended :
    (∀ (s : SessionState) (q : List sentFrame) (reason : String) (code : Int),
      s.closed = false → s.send = some q → q.length < capacity →
      close s reason code =
        ({ s with
            closed := true,
            send := some (q ++ [closeSentFrame reason code]),
            pingTimer := false },
          Event.enqueue (closeSentFrame reason code) ::
            if s.pingTimer then [Event.stopTimer] else [])) ∧
    (∀ (s : SessionState) (reason : String) (code : Int),
      s.closed = false → s.send = none →
      close s reason code =
        ({ s with closed := true, pingTimer := false },
          if s.pingTimer then [Event.stopTimer] else [])) ∧
    (∀ (s : SessionState) (reason : String) (code : Int),
      s.closed = true → close s reason code = (s, [])) :=
  ⟨fun s q reason code hc h hlen => close_enqueue hc h hlen reason code,
   fun s reason code hc h => close_send_none hc h reason code,
   fun s reason code h => close_closed h reason code⟩

/-- Witness for the amended C4 at concrete sessions: a fresh session, a
nil-channel session, and an already-closed session. -/
theorem close_idempotent_amended_witness :
    close newSessionState "reason" CloseNormalClosure =
      ({ newSessionState with
          closed := true,
          send := some ([] ++ [closeSentFrame "reason" CloseNormalClosure]),
          pingTimer := false },
        Event.enqueue (closeSentFrame "reason" CloseNormalClosure) ::
          if newSessionState.pingTimer then [Event.stopTimer] else []) ∧
    close sNilOpen "reason" CloseNormalClosure =
      ({ sNilOpen with closed := true, pingTimer := false },
        if sNilOpen.pingTimer then [Event.stopTimer] else []) ∧
    close sClosedOpen "reason" CloseNormalClosure = (sClosedOpen, []) :=
  ⟨close_idempotent_amended.1 newSessionState [] "reason" CloseNormalClosure
      rfl rfl (by decide),
   close_idempotent_amended.2.1 sNilOpen "reason" CloseNormalClosure rfl rfl,
   close_idempotent_amended.2.2 sClosedOpen "reason" CloseNormalClosure rfl⟩

/-- Counterexample for C6: when the ping timer fires on a session that is
already closed, a successful write does NOT re-arm the timer — `addPing`
refuses to install one — contradicting the unconditional "if the write
succeeds the timer is re-armed". -/
theorem ping_rearm_cex :
    (sendPing sClosedOpen 7 true).2 =
      [Event.connWrite (newPingMessage 7) (pingIntervalMs / 2)] ∧
    (sendPing sClosedOpen 7 true).1 = sClosedOpen ∧
    Event.armTimer pingIntervalMs ∉ (sendPing sClosedOpen 7 true).2 := by
  refine ⟨?_, ?_, ?_⟩ <;> simp [sendPing, addPing, sClosedOpen]

/-- C6 (amended): each ping firing writes the JSON ping payload under a
deadline of `pingInterval / 2` (1500 ms for the 3000 ms interval); when the
write succeeds the timer is re-armed for another 3000 ms provided the session
is not closed (the re-arm is skipped once `closed` is set); when the write
fails the handler runs `Disconnect("Ping failed", CloseAbnormalClosure)`. -/
theorem ping_handler_amended :
    (∀ (s : SessionState) (now : Int) (ok : Bool),
      ∃ rest, (sendPing s now ok).2 =
        Event.connWrite (newPingMessage now) (pingIntervalMs / 2) :: rest) ∧
    (pingIntervalMs / 2 = 1500 ∧ pingIntervalMs = 3000) ∧
    (∀ (s : SessionState) (now : Int), s.closed = false →
      sendPing s now true =
        ({ s with pingTimer := true },
          [Event.connWrite (newPingMessage now) (pingIntervalMs / 2),
            Event.armTimer pingIntervalMs])) ∧
    (∀ (s : SessionState) (now : Int), s.closed = true →
      sendPing s now true =
        (s, [Event.connWrite (newPingMessage now) (pingIntervalMs / 2)])) ∧
    (∀ (s : SessionState) (now : Int),
      sendPing s now false =
        ((disconnect s "Ping failed" CloseAbnormalClosure).1,
          Event.connWrite (newPingMessage now) (pingIntervalMs / 2) ::
            (disconnect s "Ping failed" CloseAbnormalClosure).2)) := by
  refine ⟨?_, ⟨rfl, rfl⟩, ?_, ?_, ?_⟩
  · intro s now ok
    cases ok <;> simp [sendPing]
  · intro s now h
    simp [sendPing, addPing, h]
  · intro s now h
    simp [sendPing, addPing, h]
  · intro s now
    simp [sendPing]

/-- Witness for the amended C6 at a fresh (not closed) session and at a failed
write. -/
theorem ping_handler_amended_witness :
    sendPing newSessionState 42 true =
      ({ newSessionState with pingTimer := true },
        [Event.connWrite (newPingMessage 42) (pingIntervalMs / 2),
          Event.armTimer pingIntervalMs]) ∧
    sendPing sClosedOpen 42 true =
      (sClosedOpen,
        [Event.connWrite (newPingMessage 42) (pingIntervalMs / 2)]) ∧
    sendPing newSessionState 42 false =
      ((disconnect newSessionState "Ping failed" CloseAbnormalClosure).1,
        Event.connWrite (newPingMessage 42) (pingIntervalMs / 2) ::
          (disconnect newSessionState "Ping failed" CloseAbnormalClosure).2) :=
  ⟨ping_handler_amended.2.2.1 newSessionState 42 rfl,
   ping_handler_amended.2.2.2.1 sClosedOpen 42 rfl,
   ping_handler_amended.2.2.2.2 newSessionState 42⟩

/-- Counterexample for C9: the close-frame delivery inside `SendMessages` goes
through `utils.CloseWS`, which receives only the connection handle — its
connection write runs with the session mutex NOT held, so not every write to
the connection happens under the session write lock. -/
theorem write_lock_cex :
    sendMessagesFrameActions (closeSentFrame "bye" CloseNormalClosure) =
      [WAction.wsFrameWrite true] ∧
    heldAt (sendMessagesFrameActions (closeSentFrame "bye" CloseNormalClosure)) 0 =
      false := by
  decide

/-- C9 (amended): text-frame writes and ping writes go through
`Session.write`, whose connection write runs between `mu.Lock()` and the
deferred `mu.Unlock()`; close frames are delivered by `utils.CloseWS` directly
on the connection, without the session mutex. -/
theorem write_lock_amended :
    allWritesHeld writeActions = true ∧
    sendPingWriteActions = writeActions ∧
    (∀ f : sentFrame, f.frameType = FrameType.textFrame →
      sendMessagesFrameActions f = writeActions) ∧
    (∀ f : sentFrame, f.frameType = FrameType.closeFrame →
      sendMessagesFrameActions f = closeWSActions) ∧
    heldAt closeWSActions 0 = false := by
  refine ⟨by decide, rfl, ?_, ?_, by decide⟩
  · intro f hf
    simp [sendMessagesFrameActions, hf]
  · intro f hf
    simp [sendMessagesFrameActions, hf]

/-- Witness for the amended C9: a concrete text frame is written under the
lock, a concrete close frame is not. -/
theorem write_lock_amended_witness :
    sendMessagesFrameActions exFrame = writeActions ∧
    sendMessagesFrameActions (closeSentFrame "bye" CloseGoingAway) =
      closeWSActions :=
  ⟨write_lock_amended.2.2.1 exFrame rfl,
   write_lock_amended.2.2.2.1 (closeSentFrame "bye" CloseGoingAway) rfl⟩

end AnycableSession
